import Mathlib

/-!
Verification of the uploader service core (src/uploader-service/main.py).

The development shallowly embeds the functions of main.py:

* `round_to_quarter` / `resolveSlot` — the time-slot resolver
  (main.py lines 122-126 and 137-138);
* `queryUserQueued` / `capUsers` / `selectItems` — the per-user
  work-item selection with its 30-user cap (lines 149-173);
* `get_refreshed_credentials` — credential refresh with deletion of the
  stored token on a permanently invalid grant (lines 40-63);
* `upload_to_youtube` — the publish step and the request body it builds
  (lines 82-119);
* `tryBlock` / `processItem` / `processLoop` — the per-item
  try/except/finally loop of `process_queue` (lines 181-226).

External effects (Firestore writes, the network download, the upload API)
are modelled by explicit outcome parameters (`ItemEnv`, `CredEnv`): each
fallible call is given its outcome (success, or an exception carrying a
message) as data, and the embedding propagates state (document fields,
temporary files, stored tokens) exactly as the Python control flow does,
including the `except` handler's own fallible write and the `finally`
block's reference to the possibly-unbound `video_path` variable.
-/

deriving instance DecidableEq for Except

namespace Uploader

/-- UTC wall-clock time of day as consumed by `round_to_quarter` in
main.py.  Only the hour, minute, second and microsecond components are
touched by the rounding or appear in the slot id, so the date components
are omitted. -/
structure UTCTime where
  hour : Nat
  minute : Nat
  second : Nat
  microsecond : Nat
  deriving DecidableEq

/-- main.py lines 122-126: `round_to_quarter(dt)` returns
`dt.replace(minute=(dt.minute // 15) * 15, second=0, microsecond=0)`. -/
def round_to_quarter (t : UTCTime) : UTCTime :=
  { t with minute := t.minute / 15 * 15, second := 0, microsecond := 0 }

/-- Zero-padded two-digit decimal rendering, as `strftime` produces for
the `%H` and `%M` fields on in-range values. -/
def twoDigit (n : Nat) : String :=
  if n < 10 then "0" ++ toString n else toString n

/-- `strftime` format string `%H_%M` applied to a time. -/
def formatHM (t : UTCTime) : String :=
  twoDigit t.hour ++ "_" ++ twoDigit t.minute

/-- main.py line 138: `round_to_quarter(now_utc).strftime('%H_%M')`,
the slot identifier of the current run. -/
def resolveSlot (t : UTCTime) : String :=
  formatHM (round_to_quarter t)

/-- Work-item lifecycle status, the values written to the `status` field
of a `video_submissions` document by `process_queue`. -/
inductive Status where
  | queued
  | processing
  | published
  | error
  deriving DecidableEq

/-- One `video_submissions` document, with the fields read or written by
`process_queue`.  Firestore `SERVER_TIMESTAMP` writes are modelled as
`some ()` in an `Option Unit` field ("the field has been set");
`submittedAt` is kept as a `Nat` because only its ordering matters. -/
structure VideoDoc where
  id : String
  uid : String
  title : String
  description : Option String
  originalUrl : String
  status : Status
  submittedAt : Nat
  updatedAt : Option Unit
  publishedAt : Option Unit
  newVideoId : Option String
  errorMessage : Option String
  deriving DecidableEq

/-- main.py lines 164-172: the Firestore query for one user — filter
`status == queued` and `uid == user`, order ascending by `submittedAt`,
limit 1 — against a store modelled as the list of all documents. -/
def queryUserQueued (store : List VideoDoc) (uid : String) : List VideoDoc :=
  ((store.filter (fun d => d.status == Status.queued && d.uid == uid)).mergeSort
    (fun a b => decide (a.submittedAt ≤ b.submittedAt))).take 1

/-- main.py lines 154-156: `if len(users) > 30: users = users[:30]`. -/
def capUsers (users : List String) : List String :=
  if users.length > 30 then users.take 30 else users

/-- main.py lines 149-173: the selection phase of `process_queue` —
cap the user list at 30, then collect each considered user's single
earliest queued item (`videos_to_process.extend(user_videos)`). -/
def selectItems (store : List VideoDoc) (users : List String) : List VideoDoc :=
  (capUsers users).flatMap (fun uid => queryUserQueued store uid)

/-- Bool test: the character list `needle` is a leading segment of `hay`. -/
def charsBeginWith : List Char → List Char → Bool
  | [], _ => true
  | _ :: _, [] => false
  | n :: ns, h :: hs => n == h && charsBeginWith ns hs

/-- Bool test: the character list `needle` occurs contiguously in `hay`. -/
def charsHasSub (needle : List Char) : List Char → Bool
  | [] => needle.isEmpty
  | h :: t => charsBeginWith needle (h :: t) || charsHasSub needle t

/-- Python's substring test `needle in hay`, used by main.py line 60 as
`if 'invalid_grant' in str(e)`. -/
def strContains (hay needle : String) : Bool :=
  charsHasSub needle.toList hay.toList

/-- main.py line 44: the message of the exception raised when the token
document is absent. -/
def missingTokenMsg (uid : String) : String :=
  "Refresh token missing for user " ++ uid ++ "."

/-- main.py line 62: the message of the exception raised after deleting a
permanently invalid credential. -/
def authExpiredMsg (uid : String) : String :=
  "Authentication expired for user " ++ uid ++ ". Please re-authenticate."

/-- Environment of one `get_refreshed_credentials` call: whether the
refresh branch is taken (`creds.expired and creds.refresh_token`,
main.py line 55) and the outcome of `creds.refresh(Request())` —
success, or an exception carrying its message. -/
structure CredEnv where
  refreshNeeded : Bool
  refreshResult : Except String Unit
  deriving DecidableEq

/-- main.py lines 40-63: `get_refreshed_credentials(db, uid)`.  The
`user_tokens` collection is modelled as the list of uids that currently
have a token document; the function returns the updated collection
(`token_ref.delete()` erases the uid) together with either success or
the message of the raised exception. -/
def get_refreshed_credentials (uid : String) (tokens : List String)
    (env : CredEnv) : List String × Except String Unit :=
  if tokens.contains uid = false then
    (tokens, Except.error (missingTokenMsg uid))
  else if env.refreshNeeded then
    match env.refreshResult with
    | Except.ok _ => (tokens, Except.ok ())
    | Except.error e =>
      if strContains e "invalid_grant" then
        (tokens.erase uid, Except.error (authExpiredMsg uid))
      else
        (tokens, Except.error e)
  else
    (tokens, Except.ok ())

/-- The `snippet` part of the upload request body (main.py lines 87-91). -/
structure SnippetBody where
  title : String
  description : String
  categoryId : String
  deriving DecidableEq

/-- The `status` part of the upload request body (main.py lines 92-94). -/
structure StatusBody where
  privacyStatus : String
  deriving DecidableEq

/-- The upload request body built by `upload_to_youtube`. -/
structure UploadBody where
  snippet : SnippetBody
  status : StatusBody
  deriving DecidableEq

/-- main.py lines 86-95: the body dict of the `videos().insert` call. -/
def buildUploadBody (title description : String) : UploadBody :=
  { snippet := { title := title, description := description, categoryId := "24" },
    status := { privacyStatus := "public" } }

/-- Result of one `upload_to_youtube` call: the updated token collection
(credential refresh may delete a token), the request body that was built
(`none` when the credential step raised before the body was built), and
either the new video id or the message of the raised exception. -/
structure UploadOut where
  tokens : List String
  body : Option UploadBody
  result : Except String String
  deriving DecidableEq

/-- main.py lines 82-119: `upload_to_youtube(db, uid, video_path, title,
description)`.  The chunked-upload loop's eventual outcome (a new video
id, or a terminal non-5xx `HttpError`) is supplied as `api`; a credential
failure propagates before any body is built. -/
def upload_to_youtube (uid title description : String) (tokens : List String)
    (cred : CredEnv) (api : Except String String) : UploadOut :=
  match get_refreshed_credentials uid tokens cred with
  | (tokens1, Except.error m) => { tokens := tokens1, body := none, result := Except.error m }
  | (tokens1, Except.ok _) =>
    { tokens := tokens1
      body := some (buildUploadBody title description)
      result := api }

/-- Mutable context threaded through the per-item loop of
`process_queue`: the set of existing temporary files, the current value
of the Python local variable `video_path` (`none` before its first
assignment on line 195), and the `user_tokens` collection. -/
structure ItemCtx where
  fs : List String
  vp : Option String
  tokens : List String
  deriving DecidableEq

/-- Outcomes of the external calls made while processing one item:
the three document writes (lines 193, 214, 219-223), the download
(line 198, with `downloadLeftover` telling whether a failed download
left a file at the output path), and the credential/upload environment. -/
structure ItemEnv where
  markProcessing : Except String Unit
  downloadResult : Except String Unit
  downloadLeftover : Bool
  cred : CredEnv
  uploadApi : Except String String
  markPublished : Except String Unit
  markError : Except String Unit
  deriving DecidableEq

/-- main.py line 193: the fields written by the processing-mark update. -/
def markProcessingDoc (d : VideoDoc) : VideoDoc :=
  { d with status := Status.processing, updatedAt := some () }

/-- main.py lines 208-214: the fields written by the success update. -/
def markPublishedDoc (d : VideoDoc) (vid : String) : VideoDoc :=
  { d with status := Status.published, publishedAt := some (),
           updatedAt := some (), newVideoId := some vid }

/-- main.py lines 219-223: the fields written by the error update. -/
def markErrorDoc (d : VideoDoc) (msg : String) : VideoDoc :=
  { d with status := Status.error, errorMessage := some msg, updatedAt := some () }

/-- main.py line 195: `os.path.join(temp_dir, f"{video_id}.mp4")`. -/
def videoPathOf (tempDir id : String) : String :=
  tempDir ++ "/" ++ id ++ ".mp4"

/-- State at the end of the `try` body (main.py lines 192-215): document
fields as last written, temporary files, the `video_path` binding, the
token collection, the escaping exception message if any, the list of
successful document writes in order, and the upload body if one was
built. -/
structure TryOut where
  doc : VideoDoc
  fs : List String
  vp : Option String
  tokens : List String
  exc : Option String
  written : List VideoDoc
  uploadBody : Option UploadBody
  deriving DecidableEq

/-- main.py lines 192-215, the `try` body for one item: mark processing,
bind `video_path`, download, upload, mark published — stopping at the
first raised exception. -/
def tryBlock (tempDir : String) (d : VideoDoc) (env : ItemEnv) (ctx : ItemCtx) : TryOut :=
  match env.markProcessing with
  | Except.error m =>
    { doc := d, fs := ctx.fs, vp := ctx.vp, tokens := ctx.tokens,
      exc := some m, written := [], uploadBody := none }
  | Except.ok _ =>
    let d1 := markProcessingDoc d
    let p := videoPathOf tempDir d.id
    match env.downloadResult with
    | Except.error m =>
      { doc := d1, fs := if env.downloadLeftover then p :: ctx.fs else ctx.fs,
        vp := some p, tokens := ctx.tokens, exc := some m,
        written := [d1], uploadBody := none }
    | Except.ok _ =>
      let fs1 := p :: ctx.fs
      let u := upload_to_youtube d.uid d.title (d.description.getD "")
                 ctx.tokens env.cred env.uploadApi
      match u.result with
      | Except.error m =>
        { doc := d1, fs := fs1, vp := some p, tokens := u.tokens,
          exc := some m, written := [d1], uploadBody := u.body }
      | Except.ok vid =>
        match env.markPublished with
        | Except.error m =>
          { doc := d1, fs := fs1, vp := some p, tokens := u.tokens,
            exc := some m, written := [d1], uploadBody := u.body }
        | Except.ok _ =>
          let d2 := markPublishedDoc d1 vid
          { doc := d2, fs := fs1, vp := some p, tokens := u.tokens,
            exc := none, written := [d1, d2], uploadBody := u.body }

/-- Result of processing one item: final document fields, resulting
context, the exception escaping the item's loop iteration if any, the
successful document writes in order, and the upload body if one was
built. -/
structure ItemOut where
  doc : VideoDoc
  ctx : ItemCtx
  raised : Option String
  written : List VideoDoc
  uploadBody : Option UploadBody
  deriving DecidableEq

/-- The message of the `NameError` raised by main.py line 225 when
`video_path` has never been assigned in the enclosing function. -/
def nameErrorMsg : String :=
  "NameError: name video_path is not defined"

/-- main.py lines 192-226, one iteration of the per-item loop: the `try`
body, then the `except` handler (line 217-223: a best-effort error-mark
write whose own failure becomes the escaping exception), then the
`finally` block (lines 224-226: remove the file at `video_path` if it
exists — raising `NameError` instead if `video_path` was never bound,
which replaces any pending exception). -/
def processItem (tempDir : String) (d : VideoDoc) (env : ItemEnv) (ctx : ItemCtx) : ItemOut :=
  let t := tryBlock tempDir d env ctx
  let h : VideoDoc × List VideoDoc × Option String :=
    match t.exc with
    | none => (t.doc, t.written, none)
    | some m =>
      match env.markError with
      | Except.ok _ => (markErrorDoc t.doc m, t.written ++ [markErrorDoc t.doc m], none)
      | Except.error m3 => (t.doc, t.written, some m3)
  match t.vp with
  | none =>
    { doc := h.1, ctx := { fs := t.fs, vp := none, tokens := t.tokens },
      raised := some nameErrorMsg, written := h.2.1, uploadBody := t.uploadBody }
  | some p =>
    { doc := h.1, ctx := { fs := t.fs.erase p, vp := some p, tokens := t.tokens },
      raised := h.2.2, written := h.2.1, uploadBody := t.uploadBody }

/-- Result of the whole per-item loop: final document states of the
items that were attempted (in order), the final context, and the
exception that aborted the loop if one escaped an iteration. -/
structure RunOut where
  docs : List VideoDoc
  ctx : ItemCtx
  raised : Option String
  deriving DecidableEq

/-- main.py lines 181-226: `for doc in videos_to_process`.  An exception
escaping an iteration propagates out of the loop, so the remaining items
are not attempted. -/
def processLoop (tempDir : String) (ctx : ItemCtx) :
    List (VideoDoc × ItemEnv) → RunOut
  | [] => { docs := [], ctx := ctx, raised := none }
  | (d, e) :: rest =>
    let r := processItem tempDir d e ctx
    match r.raised with
    | some m => { docs := [r.doc], ctx := r.ctx, raised := some m }
    | none =>
      let out := processLoop tempDir r.ctx rest
      { docs := r.doc :: out.docs, ctx := out.ctx, raised := out.raised }

/-! Concrete fixtures used by witnesses and counterexamples. -/

/-- A queued work item owned by user `uA`. -/
def docA : VideoDoc :=
  { id := "vidA", uid := "uA", title := "Title A", description := none,
    originalUrl := "urlA", status := Status.queued, submittedAt := 1,
    updatedAt := none, publishedAt := none, newVideoId := none, errorMessage := none }

/-- A later queued work item of the same owner `uA`. -/
def docA2 : VideoDoc :=
  { docA with id := "vidA2", submittedAt := 5 }

/-- A queued work item owned by user `uB`. -/
def docB : VideoDoc :=
  { id := "vidB", uid := "uB", title := "Title B", description := some "descB",
    originalUrl := "urlB", status := Status.queued, submittedAt := 2,
    updatedAt := none, publishedAt := none, newVideoId := none, errorMessage := none }

/-- A small store holding the three fixtures. -/
def store0 : List VideoDoc := [docB, docA, docA2]

/-- An environment in which every external call succeeds. -/
def envOk : ItemEnv :=
  { markProcessing := Except.ok (), downloadResult := Except.ok (),
    downloadLeftover := false,
    cred := { refreshNeeded := false, refreshResult := Except.ok () },
    uploadApi := Except.ok "yt1", markPublished := Except.ok (),
    markError := Except.ok () }

/-- The initial context of a fresh run: no temporary files, `video_path`
not yet bound, both fixture users hold a stored token. -/
def ctx0 : ItemCtx := { fs := [], vp := none, tokens := ["uA", "uB"] }

/-- A user list of 35 distinct names. -/
def users35 : List String := (List.range 35).map (fun i => "u" ++ toString i)

/-- An environment in which the download raises and the subsequent
best-effort error-marking write also raises. -/
def envDownloadThenMarkErrorFail : ItemEnv :=
  { envOk with downloadResult := Except.error "network down",
               markError := Except.error "store write failed" }

/-- An environment in which the download raises with message `boom` and
the error-marking write raises with message `db down`. -/
def envFetchFailMarkErrorFail : ItemEnv :=
  { envOk with downloadResult := Except.error "boom",
               markError := Except.error "db down" }

/-- An environment in which the initial processing-mark write raises
with message `w1 down` and everything else would succeed. -/
def envMarkProcessingFail : ItemEnv :=
  { envOk with markProcessing := Except.error "w1 down" }

/-- An environment in which the credential refresh fails with a
permanently invalid grant. -/
def envInvalidGrant : ItemEnv :=
  { envOk with cred := { refreshNeeded := true,
                         refreshResult := Except.error "oops: invalid_grant" } }

/-- An environment in which the download raises with message `timeout`
and the error-marking write succeeds. -/
def envFetchFail : ItemEnv :=
  { envOk with downloadResult := Except.error "timeout" }

/-! Helper lemmas shared between several claim theorems. -/

/-- The per-user query returns at most one document (`limit 1`). -/
theorem queryUserQueued_length_le (store : List VideoDoc) (uid : String) :
    (queryUserQueued store uid).length ≤ 1 := by
  simp [queryUserQueued, List.length_take]

/-- The comparison used by the query's ordering is transitive. -/
theorem submittedLe_trans (a b c : VideoDoc)
    (hab : decide (a.submittedAt ≤ b.submittedAt) = true)
    (hbc : decide (b.submittedAt ≤ c.submittedAt) = true) :
    decide (a.submittedAt ≤ c.submittedAt) = true := by
  simp only [decide_eq_true_eq] at hab hbc ⊢
  exact le_trans hab hbc

/-- The comparison used by the query's ordering is total. -/
theorem submittedLe_total (a b : VideoDoc) :
    (decide (a.submittedAt ≤ b.submittedAt)
      || decide (b.submittedAt ≤ a.submittedAt)) = true := by
  rcases Nat.le_total a.submittedAt b.submittedAt with h | h <;> simp [h]

/-- A flatMap whose pieces have length at most one is no longer than its
index list. -/
theorem flatMap_length_le {α β : Type} (f : α → List β)
    (h : ∀ x, (f x).length ≤ 1) :
    ∀ l : List α, (l.flatMap f).length ≤ l.length := by
  intro l
  induction l with
  | nil => simp
  | cons a t ih =>
    have := h a
    simp only [List.flatMap_cons, List.length_append, List.length_cons]
    omega

/-- C4: for every considered user the selection step returns at most one
work item owned by that user; when it returns one, that item is a queued
item of that owner with the smallest `submittedAt` among the owner's
queued items in the store; a user with no queued items contributes
nothing. -/
theorem queryUserQueued_spec (store : List VideoDoc) (uid : String) :
    (queryUserQueued store uid).length ≤ 1
    ∧ (∀ d ∈ queryUserQueued store uid,
        d ∈ store ∧ d.status = Status.queued ∧ d.uid = uid
        ∧ ∀ e ∈ store, e.status = Status.queued → e.uid = uid →
            d.submittedAt ≤ e.submittedAt)
    ∧ ((∀ e ∈ store, ¬(e.status = Status.queued ∧ e.uid = uid)) →
        queryUserQueued store uid = []) := by
  have hperm := List.mergeSort_perm
    (store.filter (fun d => d.status == Status.queued && d.uid == uid))
    (fun a b => decide (a.submittedAt ≤ b.submittedAt))
  have hpair := List.sorted_mergeSort submittedLe_trans submittedLe_total
    (store.filter (fun d => d.status == Status.queued && d.uid == uid))
  refine ⟨queryUserQueued_length_le store uid, ?_, ?_⟩
  · intro d hd
    have hd1 : d ∈ (store.filter
        (fun d => d.status == Status.queued && d.uid == uid)).mergeSort
        (fun a b => decide (a.submittedAt ≤ b.submittedAt)) :=
      List.mem_of_mem_take hd
    have hdf := hperm.mem_iff.mp hd1
    have hdm := List.mem_filter.mp hdf
    have hprop : d.status = Status.queued ∧ d.uid = uid := by
      have := hdm.2
      simpa using this
    refine ⟨hdm.1, hprop.1, hprop.2, ?_⟩
    intro e he hst hu
    have hef : e ∈ store.filter (fun d => d.status == Status.queued && d.uid == uid) :=
      List.mem_filter.mpr ⟨he, by simp [hst, hu]⟩
    have hes := hperm.mem_iff.mpr hef
    have hd2 : d ∈ ((store.filter
        (fun d => d.status == Status.queued && d.uid == uid)).mergeSort
        (fun a b => decide (a.submittedAt ≤ b.submittedAt))).take 1 := by
      simpa [queryUserQueued] using hd
    cases heq : (store.filter
        (fun d => d.status == Status.queued && d.uid == uid)).mergeSort
        (fun a b => decide (a.submittedAt ≤ b.submittedAt)) with
    | nil =>
      rw [heq] at hd2
      simp at hd2
    | cons a tail =>
      rw [heq] at hd2 hes hpair
      have hda : d = a := by simpa using hd2
      rcases List.mem_cons.mp hes with h | h
      · rw [hda, h]
      · have := List.rel_of_pairwise_cons hpair h
        rw [hda]
        simpa using this
  · intro hnone
    have hf : store.filter (fun d => d.status == Status.queued && d.uid == uid) = [] := by
      rw [List.filter_eq_nil_iff]
      intro a ha
      have := hnone a ha
      simp only [Bool.and_eq_true, beq_iff_eq]
      exact fun hcontra => this ⟨hcontra.1, hcontra.2⟩
    have : (store.filter
        (fun d => d.status == Status.queued && d.uid == uid)).mergeSort
        (fun a b => decide (a.submittedAt ≤ b.submittedAt)) = [] := by
      rw [hf] at hperm ⊢
      exact hperm.eq_nil
    simp [queryUserQueued, this]

/-- Witness for C4 on the concrete store: the query for user `uA`
returns at most one item, and the returned item `docA` has the smallest
`submittedAt` among the queued items of `uA` (here compared against
`docA2`). -/
theorem queryUserQueued_spec_witness :
    (queryUserQueued store0 "uA").length ≤ 1
    ∧ docA.submittedAt ≤ docA2.submittedAt := by
  have h := queryUserQueued_spec store0 "uA"
  have hmem : docA ∈ queryUserQueued store0 "uA" := by
    have : queryUserQueued store0 "uA" = [docA] := by
      simp [queryUserQueued, List.mergeSort, store0, docA, docA2, docB]
    simp [this]
  have hmin := (h.2.1 docA hmem).2.2.2 docA2 (by simp [store0]) (by simp [docA2, docA]) (by simp [docA2, docA])
  exact ⟨h.1, hmin⟩

/-- C5: the selector caps the considered users at 30 — with more than 30
users exactly the first 30 (in list order) are considered, with at most
30 users all of them; an empty user list yields an empty result; and one
run selects (hence processes) items for at most 30 users. -/
theorem selectItems_cap_spec (store : List VideoDoc) (users : List String) :
    (capUsers users).length ≤ 30
    ∧ (users.length > 30 → capUsers users = users.take 30)
    ∧ (users.length ≤ 30 → capUsers users = users)
    ∧ selectItems store [] = []
    ∧ (selectItems store users).length ≤ 30 := by
  have hcaplen : (capUsers users).length ≤ 30 := by
    by_cases h : users.length > 30
    · simp only [capUsers, if_pos h, List.length_take]
      omega
    · simp only [capUsers, if_neg h]
      omega
  refine ⟨hcaplen, ?_, ?_, ?_, ?_⟩
  · intro h; simp [capUsers, h]
  · intro h
    have : ¬users.length > 30 := by omega
    simp [capUsers, this]
  · simp [selectItems, capUsers]
  · calc (selectItems store users).length
        ≤ (capUsers users).length :=
          flatMap_length_le _ (fun u => queryUserQueued_length_le store u) _
      _ ≤ 30 := hcaplen

/-- Witness for C5: with the concrete 35-user list, exactly the first 30
users are considered and the run selects at most 30 items. -/
theorem selectItems_cap_spec_witness :
    capUsers users35 = users35.take 30
    ∧ (selectItems store0 users35).length ≤ 30
    ∧ selectItems store0 [] = [] := by
  have h := selectItems_cap_spec store0 users35
  exact ⟨h.2.1 (by decide), h.2.2.2.2, h.2.2.2.1⟩

/-- C6: the slot resolver formats the hour and the floored minute
`(minute / 15) * 15` as zero-padded two-digit fields joined by an
underscore, zeroes seconds and sub-seconds, maps 13:07:00 to `13_00` and
13:59:59 to `13_45`, and is stable across any two instants in the same
15-minute window of the same hour (it is total by construction). -/
theorem resolveSlot_spec (t u : UTCTime)
    (hh : t.hour = u.hour) (hq : t.minute / 15 = u.minute / 15) :
    resolveSlot t = twoDigit t.hour ++ "_" ++ twoDigit (t.minute / 15 * 15)
    ∧ (round_to_quarter t).hour = t.hour
    ∧ (round_to_quarter t).minute = t.minute / 15 * 15
    ∧ (round_to_quarter t).second = 0
    ∧ (round_to_quarter t).microsecond = 0
    ∧ resolveSlot { hour := 13, minute := 7, second := 0, microsecond := 0 } = "13_00"
    ∧ resolveSlot { hour := 13, minute := 59, second := 59, microsecond := 0 } = "13_45"
    ∧ resolveSlot t = resolveSlot u := by
  refine ⟨rfl, rfl, rfl, rfl, rfl, rfl, rfl, ?_⟩
  simp only [resolveSlot, formatHM, round_to_quarter]
  rw [hh, hq]

/-- Witness for C6: the stability part applied to the concrete instants
13:07:00.000000 and 13:12:34.000056, together with one of the concrete
slot values. -/
theorem resolveSlot_spec_witness :
    resolveSlot { hour := 13, minute := 7, second := 0, microsecond := 0 } = "13_00"
    ∧ resolveSlot { hour := 13, minute := 7, second := 0, microsecond := 0 }
        = resolveSlot { hour := 13, minute := 12, second := 34, microsecond := 56 } := by
  have h := resolveSlot_spec
    { hour := 13, minute := 7, second := 0, microsecond := 0 }
    { hour := 13, minute := 12, second := 34, microsecond := 56 } rfl rfl
  exact ⟨h.2.2.2.2.2.1, h.2.2.2.2.2.2.2⟩

/-- C9: the credential refresh deletes the stored token document exactly
when the refresh was attempted and failed with an error whose text
contains `invalid_grant`; when the token document is absent, or the
refresh fails transiently, the token collection is unchanged and an
exception is raised (the missing-token message, resp. the original
error). -/
theorem get_refreshed_credentials_spec (uid : String) (tokens : List String)
    (env : CredEnv) :
    ((get_refreshed_credentials uid tokens env).1 ≠ tokens →
      tokens.contains uid = true ∧ env.refreshNeeded = true
      ∧ ∃ m, env.refreshResult = Except.error m
          ∧ strContains m "invalid_grant" = true
          ∧ get_refreshed_credentials uid tokens env
              = (tokens.erase uid, Except.error (authExpiredMsg uid)))
    ∧ (tokens.contains uid = false →
        get_refreshed_credentials uid tokens env
          = (tokens, Except.error (missingTokenMsg uid)))
    ∧ (∀ m, tokens.contains uid = true → env.refreshNeeded = true →
        env.refreshResult = Except.error m →
        strContains m "invalid_grant" = false →
        get_refreshed_credentials uid tokens env = (tokens, Except.error m))
    ∧ (∀ m, tokens.contains uid = true → env.refreshNeeded = true →
        env.refreshResult = Except.error m →
        strContains m "invalid_grant" = true →
        get_refreshed_credentials uid tokens env
          = (tokens.erase uid, Except.error (authExpiredMsg uid))) := by
  refine ⟨?_, ?_, ?_, ?_⟩
  · intro hne
    by_cases hc : tokens.contains uid = true
    · have hm : uid ∈ tokens := by simpa using hc
      by_cases hr : env.refreshNeeded = true
      · rcases hres : env.refreshResult with m | u
        · by_cases hg : strContains m "invalid_grant" = true
          · exact ⟨hc, hr, m, rfl, hg,
              by simp [get_refreshed_credentials, hm, hr, hres, hg]⟩
          · exfalso
            apply hne
            simp only [Bool.not_eq_true] at hg
            simp [get_refreshed_credentials, hm, hr, hres, hg]
        · exfalso
          apply hne
          simp [get_refreshed_credentials, hm, hr, hres]
      · simp only [Bool.not_eq_true] at hr
        exfalso
        apply hne
        simp [get_refreshed_credentials, hm, hr]
    · have hm : uid ∉ tokens := by simpa using hc
      exfalso
      apply hne
      simp [get_refreshed_credentials, hm]
  · intro hc
    have hm : uid ∉ tokens := by simpa using hc
    simp [get_refreshed_credentials, hm]
  · intro m hc hr hres hg
    have hm : uid ∈ tokens := by simpa using hc
    simp [get_refreshed_credentials, hm, hr, hres, hg]
  · intro m hc hr hres hg
    have hm : uid ∈ tokens := by simpa using hc
    simp [get_refreshed_credentials, hm, hr, hres, hg]

/-- Witness for C9 at concrete inputs: a transient failure leaves the
token collection unchanged and re-raises, a missing token document
raises without deleting, and a permanently invalid grant deletes the
token and raises the re-authentication message. -/
theorem get_refreshed_credentials_spec_witness :
    get_refreshed_credentials "uA" ["uA", "uB"]
        { refreshNeeded := true, refreshResult := Except.error "HTTP 503" }
      = (["uA", "uB"], Except.error "HTTP 503")
    ∧ get_refreshed_credentials "uC" ["uA", "uB"]
        { refreshNeeded := true, refreshResult := Except.ok () }
      = (["uA", "uB"], Except.error (missingTokenMsg "uC"))
    ∧ get_refreshed_credentials "uA" ["uA", "uB"]
        { refreshNeeded := true, refreshResult := Except.error "oops: invalid_grant" }
      = (["uB"], Except.error (authExpiredMsg "uA")) := by
  refine ⟨?_, ?_, ?_⟩
  · exact (get_refreshed_credentials_spec "uA" ["uA", "uB"]
      { refreshNeeded := true, refreshResult := Except.error "HTTP 503" }).2.2.1
      "HTTP 503" (by decide) rfl rfl (by decide)
  · exact (get_refreshed_credentials_spec "uC" ["uA", "uB"]
      { refreshNeeded := true, refreshResult := Except.ok () }).2.1 (by decide)
  · have h := (get_refreshed_credentials_spec "uA" ["uA", "uB"]
      { refreshNeeded := true, refreshResult := Except.error "oops: invalid_grant" }).2.2.2
      "oops: invalid_grant" (by decide) rfl rfl (by decide)
    simpa using h

/-! Helper lemmas about one iteration of the per-item loop. -/

/-- The temporary-file set produced by one iteration is the incoming set
or the incoming set with one path erased: the `finally` block removes
the file at `video_path` whenever that variable is bound, and an unbound
`video_path` means no file was created for this item. -/
theorem processItem_fs_shape (td : String) (d : VideoDoc) (env : ItemEnv) (ctx : ItemCtx) :
    (processItem td d env ctx).ctx.fs = ctx.fs
    ∨ ∃ q, (processItem td d env ctx).ctx.fs = ctx.fs.erase q := by
  unfold processItem tryBlock
  rcases hmp : env.markProcessing with m | u
  · rcases hv : ctx.vp with _ | q
    · left
      simp
    · right
      exact ⟨q, by simp⟩
  · rcases hdl : env.downloadResult with m | u2
    · rcases hl : env.downloadLeftover
      · right
        exact ⟨videoPathOf td d.id, by simp [hl]⟩
      · left
        simp [hl]
    · rcases hu : (upload_to_youtube d.uid d.title (d.description.getD "")
        ctx.tokens env.cred env.uploadApi).result with m | vid
      · left
        simp [hu]
      · rcases hpub : env.markPublished with m | u3
        · left
          simp [hu, hpub]
        · left
          simp [hu, hpub]

/-- When the best-effort error-marking write succeeds and `video_path`
is bound — either it was bound by an earlier iteration, or this item's
processing-mark write succeeds and binds it — no exception escapes the
iteration, and `video_path` stays bound. -/
theorem processItem_raised_none (td : String) (d : VideoDoc) (env : ItemEnv) (ctx : ItemCtx)
    (h3 : env.markError = Except.ok ())
    (hvp : ctx.vp.isSome = true ∨ env.markProcessing = Except.ok ()) :
    (processItem td d env ctx).raised = none
    ∧ (processItem td d env ctx).ctx.vp.isSome = true := by
  unfold processItem tryBlock
  rcases hmp : env.markProcessing with m | u
  · rcases hvp with h | h
    · rcases hv : ctx.vp with _ | q
      · rw [hv] at h
        simp at h
      · simp [h3]
    · rw [hmp] at h
      simp at h
  · rcases hdl : env.downloadResult with m | u2
    · simp [h3]
    · rcases hu : (upload_to_youtube d.uid d.title (d.description.getD "")
        ctx.tokens env.cred env.uploadApi).result with m | vid
      · simp [hu, h3]
      · rcases hpub : env.markPublished with m | u3
        · simp [hu, hpub, h3]
        · simp [hu, hpub]

/-- Every document state written during one iteration is the
processing-mark of the input document, a success-mark on top of it, or
an error-mark on the input document or its processing-mark. -/
theorem processItem_written_shape (td : String) (d : VideoDoc) (env : ItemEnv) (ctx : ItemCtx) :
    ∀ x ∈ (processItem td d env ctx).written,
      x = markProcessingDoc d
      ∨ (∃ vid, x = markPublishedDoc (markProcessingDoc d) vid)
      ∨ (∃ m, x = markErrorDoc d m)
      ∨ (∃ m, x = markErrorDoc (markProcessingDoc d) m) := by
  unfold processItem tryBlock
  rcases hmp : env.markProcessing with m | u
  · rcases h3 : env.markError with m3 | u3
    · rcases hv : ctx.vp with _ | q <;> simp
    · rcases hv : ctx.vp with _ | q <;>
      · intro x hx
        simp at hx
        exact Or.inr (Or.inr (Or.inl ⟨m, hx⟩))
  · rcases hdl : env.downloadResult with m | u2
    · rcases h3 : env.markError with m3 | u3
      · rcases hv : ctx.vp with _ | q <;>
        · intro x hx
          simp at hx
          exact Or.inl hx
      · intro x hx
        simp at hx
        rcases hx with hx | hx
        · exact Or.inl hx
        · exact Or.inr (Or.inr (Or.inr ⟨m, hx⟩))
    · rcases hu : (upload_to_youtube d.uid d.title (d.description.getD "")
        ctx.tokens env.cred env.uploadApi).result with m | vid
      · rcases h3 : env.markError with m3 | u3
        · intro x hx
          simp [hu] at hx
          exact Or.inl hx
        · intro x hx
          simp [hu] at hx
          rcases hx with hx | hx
          · exact Or.inl hx
          · exact Or.inr (Or.inr (Or.inr ⟨m, hx⟩))
      · rcases hpub : env.markPublished with m | u3
        · rcases h3 : env.markError with m3 | u4
          · intro x hx
            simp [hu, hpub] at hx
            exact Or.inl hx
          · intro x hx
            simp [hu, hpub] at hx
            rcases hx with hx | hx
            · exact Or.inl hx
            · exact Or.inr (Or.inr (Or.inr ⟨m, hx⟩))
        · intro x hx
          simp [hu, hpub] at hx
          rcases hx with hx | hx
          · exact Or.inl hx
          · exact Or.inr (Or.inl ⟨vid, hx⟩)

/-- When the upload step returns an id, the credential step succeeded,
so the request body was built from the given title and description. -/
theorem upload_to_youtube_body (uid title description : String)
    (tokens : List String) (cred : CredEnv) (api : Except String String)
    (vid : String)
    (h : (upload_to_youtube uid title description tokens cred api).result
          = Except.ok vid) :
    (upload_to_youtube uid title description tokens cred api).body
      = some (buildUploadBody title description) := by
  unfold upload_to_youtube at h ⊢
  rcases hg : get_refreshed_credentials uid tokens cred with ⟨tokens1, res⟩
  rcases res with m | u
  · rw [hg] at h
    simp at h
  · simp

/-- Counterexample to C1 as stated: in a two-item run where item 1's
download raises and its best-effort error-marking write then also
raises, the write failure escapes the loop — only one item is attempted
and the run aborts with the store failure, so item 2 is never
processed. -/
theorem processLoop_abort_counterexample :
    (processLoop "/tmp/run" ctx0
        [(docA, envDownloadThenMarkErrorFail), (docB, envOk)]).docs.length = 1
    ∧ (processLoop "/tmp/run" ctx0
        [(docA, envDownloadThenMarkErrorFail), (docB, envOk)]).raised
          = some "store write failed" := by
  constructor
  · decide
  · decide

/-- C1 (amended): an exception raised while processing item N does not
prevent items N+1..K from being attempted, provided every item's
best-effort error-marking write succeeds and `video_path` gets bound
(the processing-mark writes succeed, or `video_path` was already bound
when the loop section started); without those provisos — in particular
when the error-marking write itself fails — the exception escapes the
loop and the remaining items are not attempted. -/
theorem processLoop_failure_isolation (td : String) (ctx : ItemCtx)
    (items : List (VideoDoc × ItemEnv))
    (h3 : ∀ x ∈ items, x.2.markError = Except.ok ())
    (hvp : ctx.vp.isSome = true ∨ ∀ x ∈ items, x.2.markProcessing = Except.ok ()) :
    (processLoop td ctx items).raised = none
    ∧ (processLoop td ctx items).docs.length = items.length := by
  induction items generalizing ctx with
  | nil => simp [processLoop]
  | cons de rest ih =>
    rcases de with ⟨d, e⟩
    have he3 : e.markError = Except.ok () := h3 (d, e) (by simp)
    have hvp1 : ctx.vp.isSome = true ∨ e.markProcessing = Except.ok () := by
      rcases hvp with h | h
      · exact Or.inl h
      · exact Or.inr (h (d, e) (by simp))
    have hstep := processItem_raised_none td d e ctx he3 hvp1
    have h3r : ∀ x ∈ rest, x.2.markError = Except.ok () :=
      fun x hx => h3 x (by simp [hx])
    have ihr := ih (processItem td d e ctx).ctx h3r (Or.inl hstep.2)
    simp only [processLoop, hstep.1]
    exact ⟨ihr.1, by simp [ihr.2]⟩

/-- Witness for the amended C1: a concrete two-item run in which item
1's download raises but its error-marking write succeeds; both items
are attempted and no exception escapes. -/
theorem processLoop_failure_isolation_witness :
    (processLoop "/tmp/run" ctx0 [(docA, envFetchFail), (docB, envOk)]).raised = none
    ∧ (processLoop "/tmp/run" ctx0
        [(docA, envFetchFail), (docB, envOk)]).docs.length = 2 :=
  processLoop_failure_isolation "/tmp/run" ctx0
    [(docA, envFetchFail), (docB, envOk)]
    (by decide) (Or.inr (by decide))

/-- Counterexample to C2 as stated: when the Fetch step raises after a
successful `processing` transition but the error-marking write itself
fails, the item's persisted status when its processing ends is
`processing`, not `error` (the write failure escapes instead). -/
theorem processItem_fetch_error_counterexample :
    (processItem "/tmp/run" docA envFetchFailMarkErrorFail ctx0).doc.status
        = Status.processing
    ∧ ¬ (processItem "/tmp/run" docA envFetchFailMarkErrorFail ctx0).doc.status
        = Status.error
    ∧ (processItem "/tmp/run" docA envFetchFailMarkErrorFail ctx0).raised
        = some "db down" := by
  refine ⟨?_, ?_, ?_⟩ <;> decide

/-- C2 (amended): if the Fetch step raises with message m after the
`processing` transition succeeded and the best-effort error-marking
write succeeds, the item ends with persisted status `error` and
`errorMessage` equal to m; and — unconditionally, for every outcome
environment — the temporary payload path of the item does not exist
after the item's processing ends, provided it did not exist before. -/
theorem processItem_fetch_error_spec (td : String) (d : VideoDoc) (env : ItemEnv)
    (ctx : ItemCtx) (m : String)
    (h1 : env.markProcessing = Except.ok ())
    (h2 : env.downloadResult = Except.error m)
    (h3 : env.markError = Except.ok ())
    (hfresh : videoPathOf td d.id ∉ ctx.fs) :
    (processItem td d env ctx).doc.status = Status.error
    ∧ (processItem td d env ctx).doc.errorMessage = some m
    ∧ (∀ env2 : ItemEnv, videoPathOf td d.id ∉ (processItem td d env2 ctx).ctx.fs) := by
  have hcl : ∀ env2 : ItemEnv, videoPathOf td d.id ∉ (processItem td d env2 ctx).ctx.fs := by
    intro env2
    rcases processItem_fs_shape td d env2 ctx with h | ⟨q, h⟩
    · rw [h]
      exact hfresh
    · rw [h]
      intro hmem
      exact hfresh (List.mem_of_mem_erase hmem)
  refine ⟨?_, ?_, hcl⟩ <;>
  · unfold processItem tryBlock
    simp [h1, h2, h3, markErrorDoc]

/-- Witness for the amended C2: the concrete fetch failure `timeout`
with a succeeding error-marking write ends in status `error` with that
message, and the temporary path does not exist afterwards. -/
theorem processItem_fetch_error_spec_witness :
    (processItem "/tmp/run" docA envFetchFail ctx0).doc.status = Status.error
    ∧ (processItem "/tmp/run" docA envFetchFail ctx0).doc.errorMessage = some "timeout"
    ∧ videoPathOf "/tmp/run" docA.id
        ∉ (processItem "/tmp/run" docA envFetchFail ctx0).ctx.fs := by
  have h := processItem_fetch_error_spec "/tmp/run" docA envFetchFail ctx0 "timeout"
    rfl rfl rfl (by decide)
  exact ⟨h.1, h.2.1, h.2.2 envFetchFail⟩

/-- Counterexample to C3 as stated: when the initial processing-mark
write fails (message `w1 down`) the item does not remain `queued` with
no further writes — the per-item handler catches the failure and issues
the error-marking write, leaving the item in status `error` with the
write failure as its `errorMessage`. -/
theorem processItem_markFail_counterexample :
    (processItem "/tmp/run" docA envMarkProcessingFail ctx0).doc.status = Status.error
    ∧ ¬ (processItem "/tmp/run" docA envMarkProcessingFail ctx0).doc.status
        = Status.queued
    ∧ (processItem "/tmp/run" docA envMarkProcessingFail ctx0).doc.errorMessage
        = some "w1 down" := by
  refine ⟨?_, ?_, ?_⟩ <;> decide

/-- C3 (amended): if the initial write that marks `status = processing`
fails, the raised exception is caught by the same per-item handler,
which does issue a subsequent write: when that error-marking write
succeeds, the item's persisted fields are exactly the error-mark of the
original document — status `error` (not `queued`) with the write
failure's message. -/
theorem processItem_markFail_spec (td : String) (d : VideoDoc) (env : ItemEnv)
    (ctx : ItemCtx) (m : String)
    (h1 : env.markProcessing = Except.error m)
    (h3 : env.markError = Except.ok ()) :
    (processItem td d env ctx).doc = markErrorDoc d m
    ∧ (processItem td d env ctx).doc.status = Status.error
    ∧ (processItem td d env ctx).doc.errorMessage = some m := by
  unfold processItem tryBlock
  rcases hv : ctx.vp with _ | q <;> simp [h1, h3, markErrorDoc]

/-- Witness for the amended C3 at the concrete failing write `w1 down`. -/
theorem processItem_markFail_spec_witness :
    (processItem "/tmp/run" docA envMarkProcessingFail ctx0).doc
        = markErrorDoc docA "w1 down"
    ∧ (processItem "/tmp/run" docA envMarkProcessingFail ctx0).doc.status
        = Status.error :=
  have h := processItem_markFail_spec "/tmp/run" docA envMarkProcessingFail ctx0
    "w1 down" rfl rfl
  ⟨h.1, h.2.1⟩

/-- C7: when the credential refresh fails with a permanently-invalid
signal (its error text contains `invalid_grant`), the stored credential
document of that user is deleted, and the raised re-authentication
error is routed to the per-item error path: the item ends in status
`error` with the re-authentication message. -/
theorem processItem_invalid_grant (td : String) (d : VideoDoc) (env : ItemEnv)
    (ctx : ItemCtx) (m : String)
    (h1 : env.markProcessing = Except.ok ())
    (h2 : env.downloadResult = Except.ok ())
    (hmem : d.uid ∈ ctx.tokens)
    (hr : env.cred.refreshNeeded = true)
    (hres : env.cred.refreshResult = Except.error m)
    (hg : strContains m "invalid_grant" = true)
    (h3 : env.markError = Except.ok ()) :
    (processItem td d env ctx).ctx.tokens = ctx.tokens.erase d.uid
    ∧ (processItem td d env ctx).doc.status = Status.error
    ∧ (processItem td d env ctx).doc.errorMessage = some (authExpiredMsg d.uid) := by
  unfold processItem tryBlock upload_to_youtube get_refreshed_credentials
  simp [h1, h2, h3, hmem, hr, hres, hg, markErrorDoc]

/-- Witness for C7: on the concrete item of user `uA` with a refresh
failing on `invalid_grant`, the token of `uA` is deleted and the item
is marked `error` with the re-authentication message. -/
theorem processItem_invalid_grant_witness :
    (processItem "/tmp/run" docA envInvalidGrant ctx0).ctx.tokens = ["uB"]
    ∧ (processItem "/tmp/run" docA envInvalidGrant ctx0).doc.status = Status.error
    ∧ (processItem "/tmp/run" docA envInvalidGrant ctx0).doc.errorMessage
        = some (authExpiredMsg "uA") := by
  have h := processItem_invalid_grant "/tmp/run" docA envInvalidGrant ctx0
    "oops: invalid_grant" rfl rfl (by decide) rfl rfl (by decide) rfl
  refine ⟨?_, h.2.1, h.2.2⟩
  rw [h.1]
  decide

/-- C8: in the observable sequence of document states of an item that
starts `queued` (its initial state followed by every state produced by
a successful store write during its processing), no state has status
`published` without `newVideoId` — the success update writes `status`,
`publishedAt`, `updatedAt` and `newVideoId` in one single write. -/
theorem processItem_published_atomic (td : String) (d : VideoDoc) (env : ItemEnv)
    (ctx : ItemCtx) (hq : d.status = Status.queued) :
    ∀ x ∈ d :: (processItem td d env ctx).written,
      x.status = Status.published →
        x.newVideoId.isSome = true ∧ x.publishedAt.isSome = true
        ∧ x.updatedAt.isSome = true := by
  intro x hx hpub
  rcases List.mem_cons.mp hx with h | h
  · rw [h, hq] at hpub
    simp at hpub
  · rcases processItem_written_shape td d env ctx x h with h1 | ⟨vid, h1⟩ | ⟨m, h1⟩ | ⟨m, h1⟩
    · rw [h1] at hpub
      simp [markProcessingDoc] at hpub
    · rw [h1]
      simp [markPublishedDoc, markProcessingDoc]
    · rw [h1] at hpub
      simp [markErrorDoc] at hpub
    · rw [h1] at hpub
      simp [markErrorDoc, markProcessingDoc] at hpub

/-- Witness for C8: on the concrete successful run of `docB`, the
published state observed in the store has `newVideoId`, `publishedAt`
and `updatedAt` all set. -/
theorem processItem_published_atomic_witness :
    (markPublishedDoc (markProcessingDoc docB) "yt1").newVideoId.isSome = true
    ∧ (markPublishedDoc (markProcessingDoc docB) "yt1").publishedAt.isSome = true
    ∧ (markPublishedDoc (markProcessingDoc docB) "yt1").updatedAt.isSome = true :=
  processItem_published_atomic "/tmp/run" docB envOk ctx0 rfl
    (markPublishedDoc (markProcessingDoc docB) "yt1") (by decide) (by decide)

/-- C10: an item that ends `published` was uploaded with the body built
from its own title and its description defaulted to the empty string,
and that body fixes `privacyStatus` to `public` and `categoryId` to
`24` regardless of the item's stored fields. -/
theorem processItem_upload_body (td : String) (d : VideoDoc) (env : ItemEnv)
    (ctx : ItemCtx)
    (hq : d.status = Status.queued)
    (hpub : (processItem td d env ctx).doc.status = Status.published) :
    (processItem td d env ctx).uploadBody
      = some (buildUploadBody d.title (d.description.getD ""))
    ∧ (∀ t ds : String,
        (buildUploadBody t ds).status.privacyStatus = "public"
        ∧ (buildUploadBody t ds).snippet.categoryId = "24"
        ∧ (buildUploadBody t ds).snippet.title = t
        ∧ (buildUploadBody t ds).snippet.description = ds) := by
  refine ⟨?_, fun t ds => ⟨rfl, rfl, rfl, rfl⟩⟩
  rcases hmp : env.markProcessing with m | u
  · exfalso
    revert hpub
    unfold processItem tryBlock
    rcases h3 : env.markError with m3 | u3 <;>
      rcases hv : ctx.vp with _ | q <;>
        simp [hmp, h3, hv, markErrorDoc, hq]
  · rcases hdl : env.downloadResult with m | u2
    · exfalso
      revert hpub
      unfold processItem tryBlock
      rcases h3 : env.markError with m3 | u3 <;>
        simp [hmp, hdl, h3, markErrorDoc, markProcessingDoc]
    · rcases hu : (upload_to_youtube d.uid d.title (d.description.getD "")
          ctx.tokens env.cred env.uploadApi).result with m | vid
      · exfalso
        revert hpub
        unfold processItem tryBlock
        rcases h3 : env.markError with m3 | u3 <;>
          simp [hmp, hdl, hu, h3, markErrorDoc, markProcessingDoc]
      · rcases hpb : env.markPublished with m | u3
        · exfalso
          revert hpub
          unfold processItem tryBlock
          rcases h3 : env.markError with m3 | u3 <;>
            simp [hmp, hdl, hu, hpb, h3, markErrorDoc, markProcessingDoc]
        · have hbody := upload_to_youtube_body d.uid d.title (d.description.getD "")
            ctx.tokens env.cred env.uploadApi vid hu
          unfold processItem tryBlock
          simp [hmp, hdl, hu, hpb, hbody]

/-- Witness for C10: on the concrete successful run of `docB` the upload
body carries `docB`'s title, its description, category `24` and privacy
`public`. -/
theorem processItem_upload_body_witness :
    (processItem "/tmp/run" docB envOk ctx0).uploadBody
      = some (buildUploadBody docB.title (docB.description.getD ""))
    ∧ (buildUploadBody "a title" "a description").snippet.categoryId = "24"
    ∧ (buildUploadBody "a title" "a description").status.privacyStatus = "public" := by
  have h := processItem_upload_body "/tmp/run" docB envOk ctx0 rfl (by decide)
  exact ⟨h.1, (h.2 "a title" "a description").2.1, (h.2 "a title" "a description").1⟩

end Uploader
